import Mathlib

/-!
Verification of the span-replacement script `temp_replace.py`.

The script reads a text file, locates a hardcoded start marker and a
hardcoded end marker (first occurrences, via Python's `str.find`), and
splices in a hardcoded replacement, dropping a fixed trailer after the
end-marker position.  Documents are modelled as `List Char`; Python's
`str.find(sub, start)` is modelled by `find`, slicing by `List.take` /
`List.drop`.
-/

set_option maxRecDepth 100000

namespace TempReplace

/-- `occursAt doc pat i` : the literal string `pat` occurs in `doc` at
index `i`, i.e. `doc[i : i + len(pat)] = pat` with the whole match inside
the document (exact character-by-character comparison, no pattern
semantics). -/
def occursAt (doc pat : List Char) (i : Nat) : Prop :=
  i + pat.length ≤ doc.length ∧ (doc.drop i).take pat.length = pat

instance (doc pat : List Char) (i : Nat) : Decidable (occursAt doc pat i) :=
  inferInstanceAs (Decidable (_ ∧ _))

/-- Scan positions `i, i+1, ...` (`fuel` of them) for a literal match of
`pat`, returning the first matching position. -/
def findFromAux (doc pat : List Char) : Nat → Nat → Option Nat
  | _, 0 => none
  | i, fuel + 1 =>
    if (doc.drop i).take pat.length = pat then some i
    else findFromAux doc pat (i + 1) fuel

/-- Model of Python's `str.find(sub, start)` (with `none` in place of
`-1`): the least index `i ≥ start` such that `doc[i : i + len(pat)] = pat`
and the match lies inside the document. -/
def find (doc pat : List Char) (start : Nat) : Option Nat :=
  if start ≤ doc.length then findFromAux doc pat start (doc.length + 1 - start)
  else none

theorem findFromAux_eq_some {doc pat : List Char} :
    ∀ {fuel i j : Nat}, findFromAux doc pat i fuel = some j →
      i ≤ j ∧ j < i + fuel ∧ (doc.drop j).take pat.length = pat ∧
        ∀ k, i ≤ k → k < j → (doc.drop k).take pat.length ≠ pat := by
  intro fuel
  induction fuel with
  | zero => intro i j h; simp [findFromAux] at h
  | succ n ih =>
    intro i j h
    rw [findFromAux] at h
    by_cases hc : (doc.drop i).take pat.length = pat
    · rw [if_pos hc] at h
      cases h
      exact ⟨Nat.le_refl _, by omega, hc, fun k hk1 hk2 => absurd hk2 (by omega)⟩
    · rw [if_neg hc] at h
      obtain ⟨h1, h2, h3, h4⟩ := ih h
      refine ⟨by omega, by omega, h3, ?_⟩
      intro k hk1 hk2
      rcases Nat.eq_or_lt_of_le hk1 with heq | hlt
      · exact heq ▸ hc
      · exact h4 k hlt hk2

theorem findFromAux_eq_none {doc pat : List Char} :
    ∀ {fuel i : Nat}, findFromAux doc pat i fuel = none →
      ∀ k, i ≤ k → k < i + fuel → (doc.drop k).take pat.length ≠ pat := by
  intro fuel
  induction fuel with
  | zero => intro i _ k hk1 hk2; omega
  | succ n ih =>
    intro i h k hk1 hk2
    rw [findFromAux] at h
    by_cases hc : (doc.drop i).take pat.length = pat
    · rw [if_pos hc] at h; cases h
    · rw [if_neg hc] at h
      rcases Nat.eq_or_lt_of_le hk1 with heq | hlt
      · exact heq ▸ hc
      · exact ih h k hlt (by omega)

theorem occursAt_le_length {doc pat : List Char} {i : Nat}
    (h : occursAt doc pat i) : i ≤ doc.length := by
  have := h.1; omega

theorem occursAt_iff_of_le {doc pat : List Char} {i : Nat}
    (h : i ≤ doc.length) :
    occursAt doc pat i ↔ (doc.drop i).take pat.length = pat := by
  constructor
  · exact fun hp => hp.2
  · intro ht
    refine ⟨?_, ht⟩
    have hl := congrArg List.length ht
    simp only [List.length_take, List.length_drop] at hl
    omega

/-- `find doc pat k = some i` exactly when `i` is the first literal
occurrence of `pat` in `doc` at or after `k`. -/
theorem find_eq_some_iff {doc pat : List Char} {k i : Nat} :
    find doc pat k = some i ↔
      k ≤ i ∧ occursAt doc pat i ∧
        ∀ j, k ≤ j → j < i → ¬ occursAt doc pat j := by
  unfold find
  by_cases hk : k ≤ doc.length
  · rw [if_pos hk]
    constructor
    · intro h
      obtain ⟨h1, h2, h3, h4⟩ := findFromAux_eq_some h
      have hi : i ≤ doc.length := by omega
      refine ⟨h1, (occursAt_iff_of_le hi).mpr h3, ?_⟩
      intro j hj1 hj2 hO
      exact h4 j hj1 hj2 ((occursAt_iff_of_le (occursAt_le_length hO)).mp hO)
    · rintro ⟨h1, h2, h3⟩
      rcases hfa : findFromAux doc pat k (doc.length + 1 - k) with _ | j
      · exfalso
        have hi := occursAt_le_length h2
        exact findFromAux_eq_none hfa i h1 (by omega)
          ((occursAt_iff_of_le hi).mp h2)
      · obtain ⟨g1, g2, g3, g4⟩ := findFromAux_eq_some hfa
        have hjle : j ≤ doc.length := by omega
        rcases Nat.lt_trichotomy j i with hlt | heq | hgt
        · exact absurd ((occursAt_iff_of_le hjle).mpr g3) (h3 j g1 hlt)
        · exact heq ▸ rfl
        · exact absurd ((occursAt_iff_of_le (occursAt_le_length h2)).mp h2)
            (g4 i h1 hgt)
  · rw [if_neg hk]
    constructor
    · intro h; cases h
    · rintro ⟨h1, h2, _⟩
      exact absurd (occursAt_le_length h2) (by omega)

/-- `find doc pat k = none` exactly when `pat` has no literal occurrence
in `doc` at or after `k`. -/
theorem find_eq_none_iff {doc pat : List Char} {k : Nat} :
    find doc pat k = none ↔ ∀ i, k ≤ i → ¬ occursAt doc pat i := by
  unfold find
  by_cases hk : k ≤ doc.length
  · rw [if_pos hk]
    constructor
    · intro h i hi hO
      have hile := occursAt_le_length hO
      exact findFromAux_eq_none h i hi (by omega)
        ((occursAt_iff_of_le hile).mp hO)
    · intro h
      rcases hfa : findFromAux doc pat k (doc.length + 1 - k) with _ | j
      · rfl
      · obtain ⟨g1, g2, g3, _⟩ := findFromAux_eq_some hfa
        have hjle : j ≤ doc.length := by omega
        exact absurd ((occursAt_iff_of_le hjle).mpr g3) (h j g1)
  · rw [if_neg hk]
    constructor
    · intro _ i hi hO
      exact absurd (occursAt_le_length hO) (by omega)
    · intro _; rfl

theorem find_eq_some_occursAt {doc pat : List Char} {k i : Nat}
    (h : find doc pat k = some i) : k ≤ i ∧ occursAt doc pat i :=
  ⟨(find_eq_some_iff.mp h).1, (find_eq_some_iff.mp h).2.1⟩


/-! ### The script's hardcoded constants (from `temp_replace.py`) -/

/-- The regex-style pattern of the script's first, unexecuted approach
(`old_pattern`, a Python raw string: backslashes are literal characters).
It is assigned and never read. -/
def old_pattern : List Char :=
  ("                    <div className=\"relative flex-1 lg:max-w-xs w-full lg:w-auto\">\n                      <label className=\"absolute -top-2 left-3 bg-white px-1 text-xs text-gray-600 font-medium z-10\">\n                        Going to\n                      </label>\n                      <button\n                        onClick=\\\x7b\\(\\) => setShowToCities\\(!showToCities\\)\\\x7d\n                        className=\"flex items-center bg-white rounded border border-gray-300 px-3 py-2 h-12 w-full hover:border-blue-500 touch-manipulation\"\n                      >\n                        <Plane className=\"w-4 h-4 text-gray-500 mr-2\" />\n                        <div className=\"flex items-center space-x-2\">\n                          \\\x7bselectedToCity \\? \\(\n                            <>\n                              <div className=\"bg-blue-600 text-white px-2 py-1 rounded text-xs font-bold\">\n                                \\\x7bcityData\\[selectedToCity\\]\\?\\.code\\\x7d\n                              </div>\n                              <span className=\"text-sm text-gray-700 font-medium\">\n                                \\\x7bcityData\\[selectedToCity\\]\\?\\.airport\\\x7d\n                              </span>\n                            </>\n                          \\) : \\(\n                            <span className=\"text-sm text-gray-500 font-medium\">\n                              Going to\n                            </span>\n                          \\)\\\x7d\n                        </div>\n                      </button>\n\n                      \\\x7bshowToCities && \\(\n                        <div className=\"absolute top-14 left-0 right-0 sm:right-auto bg-white border border-gray-200 rounded-lg shadow-xl p-3 sm:p-4 z-50 w-full sm:w-96 max-h-80 overflow-y-auto\">\n                          <div className=\"mb-3\">\n                            <h3 className=\"text-sm font-semibold text-gray-900 mb-2\">\n                              Airport, city or country\n                            </h3>\n                            <div className=\"relative\">\n                              <input\n                                type=\"text\"\n                                placeholder=\"Dubai\"\n                                className=\"w-full px-3 py-2 border border-gray-300 rounded focus:outline-none focus:border-blue-500 text-sm\"\n                              />\n                            </div>\n                          </div>\n\n                          <div className=\"space-y-1\">\n                            \\\x7bObject\\.entries\\(cityData\\)\\.map\\(\\(\\[city, data\\]\\) => \\(\n                              <button\n                                key=\\\x7bcity\\\x7d\n                                onClick=\\\x7b\\(\\) => \\\x7b\n                                  setSelectedToCity\\(city\\);\n                                  setShowToCities\\(false\\);\n                                \\\x7d\\\x7d\n                                className=\"w-full text-left px-3 py-3 hover:bg-gray-100 rounded\"\n                              >\n                                <div className=\"flex items-center space-x-3\">\n                                  <div className=\"w-8 h-8 bg-blue-50 rounded-full flex items-center justify-center\">\n                                    <Plane className=\"w-4 h-4 text-blue-600\" />\n                                  </div>\n                                  <div>\n                                    <div className=\"text-sm font-medium text-gray-900\">\n                                      <span className=\"font-semibold\">\n                                        \\\x7bdata\\.code\\\x7d\n                                      </span>\\\x7b\" \"\\\x7d\n                                      [^\x7b]+\\\x7bcity\\\x7d\n                                    </div>\n                                    <div className=\"text-xs text-gray-500\">\n                                      \\\x7bdata\\.airport\\\x7d\n                                    </div>\n                                    <div className=\"text-xs text-gray-400\">\n                                      \\\x7bdata\\.fullName\\\x7d\n                                    </div>\n                                  </div>\n                                </div>\n                              </button>\n                            \\)\\)\\\x7d\n                          </div>\n                        </div>\n                      \\)\\\x7d\n                    </div>").toList

def new_replacement : List Char :=
  ("                    <div className=\"relative flex-1 lg:max-w-xs w-full lg:w-auto\">\n                      <CityAutocomplete\n                        label=\"Going to\"\n                        placeholder=\"City or airport\"\n                        value=\x7btoAirport\x7d\n                        onChange=\x7bsetToAirport\x7d\n                        fetchOptions=\x7bsearchAirportsWithFallback\x7d\n                        icon=\x7b<Plane className=\"w-4 h-4\" />\x7d\n                        className=\"relative\"\n                      />\n                    </div>").toList

def start_marker : List Char :=
  ("                    <div className=\"relative flex-1 lg:max-w-xs w-full lg:w-auto\">\n                      <label className=\"absolute -top-2 left-3 bg-white px-1 text-xs text-gray-600 font-medium z-10\">\n                        Going to\n                      </label>").toList

def end_marker : List Char :=
  ("                      )\x7d\n                    </div>\n\n                    <div className=\"relative overflow-visible lg:max-w-[250px] w-full lg:w-auto\">").toList

def trailer1 : List Char :=
  ("                      )\x7d").toList

def trailer2 : List Char :=
  ("\n                    </div>\n").toList

/-- The failure message printed when the start marker is absent. -/
def startNotFoundMsg : List Char := ("Start marker not found").toList

/-- The failure message printed when the end marker is absent. -/
def endNotFoundMsg : List Char := ("End marker not found").toList

/-! ### The script itself -/

/-- Observable outcome of one run of the script on a document: either a
failure message together with the process exit code (`exit(1)`), or the
new file content written back. -/
inductive ScriptResult where
  | failure (message : List Char) (exitCode : Nat)
  | success (newFile : List Char)
deriving DecidableEq

def ScriptResult.isFailure : ScriptResult → Bool
  | .failure _ _ => true
  | .success _ => false

/-- The executed logic of `temp_replace.py` on a document `content`
(lines 9–132): the dead `old_pattern` binding, then
`start_pos = content.find(start_marker)`, failing with
"Start marker not found" / `exit(1)` when `-1`; then
`end_pos = content.find(end_marker, start_pos)`, failing with
"End marker not found" / `exit(1)` when `-1`; then
`new_content = content[:start_pos] + new_replacement +
content[end_pos + len("                      )}") +
len("\n                    </div>\n"):]`, which is written back. -/
def runScript (content : List Char) : ScriptResult :=
  let _old_pattern := old_pattern
  match find content start_marker 0 with
  | none => .failure startNotFoundMsg 1
  | some start_pos =>
    match find content end_marker start_pos with
    | none => .failure endNotFoundMsg 1
    | some end_pos =>
      .success (content.take start_pos ++ new_replacement ++
        content.drop (end_pos + (trailer1.length + trailer2.length)))

/-- The same script with the dead block removed: no `old_pattern`
binding (lines 9–85), otherwise identical. -/
def runScriptWithoutDeadBlock (content : List Char) : ScriptResult :=
  match find content start_marker 0 with
  | none => .failure startNotFoundMsg 1
  | some start_pos =>
    match find content end_marker start_pos with
    | none => .failure endNotFoundMsg 1
    | some end_pos =>
      .success (content.take start_pos ++ new_replacement ++
        content.drop (end_pos + (trailer1.length + trailer2.length)))

/-- Content of the target file after the script runs on a file holding
`content`: the script writes only on the success path, so on failure the
file keeps its prior content. -/
def fileAfter (content : List Char) : List Char :=
  match runScript content with
  | .failure _ _ => content
  | .success newFile => newFile

/-! ### The generalized span-replacement operation of the design spec -/

/-- Failure signals of the spec's error taxonomy (section 7). -/
inductive SpanError where
  | markerNotFound (marker : List Char)
  | outOfRange
deriving DecidableEq

/-- Modelled from the spec: the parameterized operation
`replaceSpan(document, startMarker, endMarker, replacement,
trailerLength)` of section 4.1 does not exist as a function in the
repository — the script hardcodes one instance and has no `OutOfRange`
check — so it is built here from the spec's four numbered steps:
locate the first start-marker occurrence, locate the first end-marker
occurrence at or after it, fail with `OutOfRange` when
`spliceEnd = endPos + len(endMarker) + trailerLength` exceeds the
document length, else splice. -/
def replaceSpan (document startMarker endMarker replacement : List Char)
    (trailerLength : Nat) : Except SpanError (List Char) :=
  match find document startMarker 0 with
  | none => .error (.markerNotFound startMarker)
  | some startPos =>
    match find document endMarker startPos with
    | none => .error (.markerNotFound endMarker)
    | some endPos =>
      let spliceEnd := endPos + endMarker.length + trailerLength
      if document.length < spliceEnd then .error .outOfRange
      else .ok (document.take startPos ++ replacement ++
        document.drop spliceEnd)

/-! ### Claims -/

/-- C1: when the start marker is first found at `startPos`, the end
marker is first found at or after it at `endPos`, and
`endPos + len(E) + t ≤ len(D)`, `replaceSpan` returns exactly
`D[0:startPos] + R + D[endPos + len(E) + t:]`. -/
theorem replaceSpan_found_and_spliced
    (D S E R : List Char) (t startPos endPos : Nat)
    (hS : find D S 0 = some startPos)
    (hE : find D E startPos = some endPos)
    (hle : endPos + E.length + t ≤ D.length) :
    replaceSpan D S E R t =
      .ok (D.take startPos ++ R ++ D.drop (endPos + E.length + t)) := by
  simp only [replaceSpan, hS, hE]
  rw [if_neg (by omega)]

theorem replaceSpan_found_and_spliced_witness :
    replaceSpan (("ab<e>cd").toList) (("ab").toList) (("<e>").toList)
      (("X").toList) 1 =
      .ok ((("ab<e>cd").toList).take 0 ++ ("X").toList ++
        (("ab<e>cd").toList).drop (2 + (("<e>").toList).length + 1)) :=
  replaceSpan_found_and_spliced _ _ _ _ 1 0 2 (by decide) (by decide)
    (by decide)

/-- C2: whenever both hardcoded markers are found (start marker first at
`s`, end marker first at or after `s` at `e`), the script's output
document is exactly `content[0:s] + new_replacement +
content[e + trailer_len:]`, with `trailer_len` the fixed count of
characters removed after `e`. -/
theorem runScript_splice_invariant
    (content : List Char) (s e : Nat)
    (hS : find content start_marker 0 = some s)
    (hE : find content end_marker s = some e) :
    runScript content =
      .success (content.take s ++ new_replacement ++
        content.drop (e + (trailer1.length + trailer2.length))) := by
  simp only [runScript, hS, hE]

theorem runScript_splice_invariant_witness :
    runScript (start_marker ++ end_marker) =
      .success ((start_marker ++ end_marker).take 0 ++ new_replacement ++
        (start_marker ++ end_marker).drop
          (264 + (trailer1.length + trailer2.length))) :=
  runScript_splice_invariant _ 0 264 (by decide) (by decide)

/-- C3: if the start marker occurs at `i1 < i2`, the script's search
succeeds and returns a position `j ≤ i1` (so never `i2`); `j` is the
first occurrence of the start marker, equals `i1` when no occurrence
precedes `i1`, and is the position at which any successful run splices,
wherever the end marker may be. -/
theorem runScript_first_occurrence_policy
    (content : List Char) (i1 i2 : Nat)
    (h1 : occursAt content start_marker i1) (h12 : i1 < i2) :
    (find content start_marker 0).isSome = true ∧
    ∀ j, find content start_marker 0 = some j →
      j ≤ i1 ∧ j ≠ i2 ∧ occursAt content start_marker j ∧
      (∀ k, k < j → ¬ occursAt content start_marker k) ∧
      ((∀ k, k < i1 → ¬ occursAt content start_marker k) → j = i1) ∧
      ∀ out, runScript content = .success out →
        ∃ e, find content end_marker j = some e ∧
          out = content.take j ++ new_replacement ++
            content.drop (e + (trailer1.length + trailer2.length)) := by
  constructor
  · rcases hf : find content start_marker 0 with _ | j
    · exact absurd h1 (find_eq_none_iff.mp hf i1 (Nat.zero_le _))
    · rfl
  · intro j hj
    obtain ⟨-, hocc, hmin⟩ := find_eq_some_iff.mp hj
    have hji1 : j ≤ i1 := by
      by_contra hgt
      exact hmin i1 (Nat.zero_le _) (by omega) h1
    refine ⟨hji1, by omega, hocc,
      fun k hk => hmin k (Nat.zero_le _) hk, ?_, ?_⟩
    · intro hfirst
      rcases Nat.eq_or_lt_of_le hji1 with heq | hlt
      · exact heq
      · exact absurd hocc (hfirst j hlt)
    · intro out hout
      simp only [runScript, hj] at hout
      rcases hE : find content end_marker j with _ | e
      · rw [hE] at hout; cases hout
      · rw [hE] at hout
        exact ⟨e, rfl, (ScriptResult.success.inj hout).symm⟩

theorem runScript_first_occurrence_policy_witness :
    (find (start_marker ++ start_marker) start_marker 0).isSome = true :=
  (runScript_first_occurrence_policy (start_marker ++ start_marker) 0 264
    (by decide) (by decide)).1

/-- C4: when the start marker is absent, or the end marker is absent at
or after the start position, the run is a failure and the file content
after the run is byte-identical to its prior state — no partial write. -/
theorem runScript_failure_no_write
    (content : List Char)
    (h : find content start_marker 0 = none ∨
      ∃ s, find content start_marker 0 = some s ∧
        find content end_marker s = none) :
    fileAfter content = content ∧ (runScript content).isFailure = true := by
  rcases h with h | ⟨s, hs, he⟩
  · simp [fileAfter, runScript, h, ScriptResult.isFailure]
  · simp [fileAfter, runScript, hs, he, ScriptResult.isFailure]

theorem runScript_failure_no_write_witness :
    fileAfter [] = [] ∧ (runScript []).isFailure = true :=
  runScript_failure_no_write [] (Or.inl (by decide))

/-- C5: when both markers are found but
`endPos + len(E) + t > len(D)`, `replaceSpan` fails with `OutOfRange`
instead of truncating and producing an output. -/
theorem replaceSpan_out_of_range
    (D S E R : List Char) (t startPos endPos : Nat)
    (hS : find D S 0 = some startPos)
    (hE : find D E startPos = some endPos)
    (hgt : D.length < endPos + E.length + t) :
    replaceSpan D S E R t = .error SpanError.outOfRange := by
  simp only [replaceSpan, hS, hE]
  rw [if_pos (by omega)]

theorem replaceSpan_out_of_range_witness :
    replaceSpan (("ab").toList) (("a").toList) (("b").toList)
      (("R").toList) 5 = .error SpanError.outOfRange :=
  replaceSpan_out_of_range _ _ _ _ 5 0 1 (by decide) (by decide) (by decide)

/-- C6: on `D = "<s>one<e><s>two<e>"` with `S = "<s>"`, `E = "<e>"`,
`R = ""`, `t = 0`, the operation succeeds and returns `"<s>two<e>"`:
the first pair collapses and the second pair is left intact. -/
theorem replaceSpan_scenario_three :
    replaceSpan (("<s>one<e><s>two<e>").toList) (("<s>").toList)
      (("<e>").toList) (("").toList) 0 = .ok (("<s>two<e>").toList) := rfl

/-- C7: `find doc pat k` returns the index of the first literal
occurrence of `pat` in `doc` at or after `k`, and `none` exactly when
no occurrence exists; an occurrence is exact character-by-character
slice equality, with no pattern interpretation. -/
theorem find_locate_contract (doc pat : List Char) (k : Nat) :
    (∀ i, find doc pat k = some i ↔
      k ≤ i ∧ occursAt doc pat i ∧
        ∀ j, k ≤ j → j < i → ¬ occursAt doc pat j) ∧
    (find doc pat k = none ↔ ∀ i, k ≤ i → ¬ occursAt doc pat i) ∧
    (∀ i, occursAt doc pat i ↔
      i + pat.length ≤ doc.length ∧ (doc.drop i).take pat.length = pat) :=
  ⟨fun _ => find_eq_some_iff, find_eq_none_iff, fun _ => Iff.rfl⟩

theorem find_locate_contract_witness :
    find (("ab").toList) (("b").toList) 0 = some 1 :=
  ((find_locate_contract (("ab").toList) (("b").toList) 0).1 1).mpr
    ⟨by decide, by decide, fun j _ hj => by
      have hj0 : j = 0 := by omega
      subst hj0
      decide⟩

/-- C8: when a marker is absent the script fails with a message naming
the offending marker (the two messages are distinct) and a non-zero
exit status. -/
theorem runScript_failure_reporting (content : List Char) :
    (find content start_marker 0 = none →
      runScript content = .failure startNotFoundMsg 1) ∧
    (∀ s, find content start_marker 0 = some s →
      find content end_marker s = none →
      runScript content = .failure endNotFoundMsg 1) ∧
    startNotFoundMsg ≠ endNotFoundMsg ∧ (1 : Nat) ≠ 0 := by
  refine ⟨?_, ?_, by decide, by decide⟩
  · intro h
    simp only [runScript, h]
  · intro s hs he
    simp only [runScript, hs, he]

theorem runScript_failure_reporting_witness :
    runScript [] = ScriptResult.failure startNotFoundMsg 1 :=
  (runScript_failure_reporting []).1 (by decide)

/-- C9: the unexecuted regex-style pattern block is dead code — the
script with the `old_pattern` binding removed produces, for every input
document, the same output and the same success/failure outcome as the
script with it. -/
theorem dead_pattern_block_equiv (content : List Char) :
    runScript content = runScriptWithoutDeadBlock content := rfl

/-- C10 counterexample: the two fixed trailer literals total 52
characters, not 50, and the end marker has 150 characters, not 101. -/
theorem trailer_counts_counterexample :
    ¬ (trailer1.length + trailer2.length = 50 ∧
      end_marker.length = 101) := by decide

/-- C10 (amended): the 52 characters of the two fixed trailer literals
are exactly a prefix of the 150-character end marker, so whenever the
end marker is found at `e` the splice end `e + 52` never exceeds the
document length: the tail slice of the success path is always in
range. -/
theorem trailer_prefix_in_range :
    trailer1.length + trailer2.length = 52 ∧ end_marker.length = 150 ∧
    end_marker.take (trailer1.length + trailer2.length) =
      trailer1 ++ trailer2 ∧
    ∀ content e s, find content end_marker s = some e →
      e + (trailer1.length + trailer2.length) ≤ content.length := by
  refine ⟨by decide, by decide, by decide, ?_⟩
  intro content e s h
  have hocc := (find_eq_some_occursAt h).2
  have hb := hocc.1
  have hl : end_marker.length = 150 := by decide
  have ht : trailer1.length + trailer2.length = 52 := by decide
  omega

theorem trailer_prefix_in_range_witness :
    0 + (trailer1.length + trailer2.length) ≤ end_marker.length :=
  trailer_prefix_in_range.2.2.2 end_marker 0 0 (by decide)

end TempReplace
